import Mathlib

/-
  Verification development for the timataka race-results scraper
  (backend/src/services/scraper.js and backend/src/services/mockData.js).

  JavaScript strings are modelled as `List Char`; the regular expressions
  used by the scraper are small fixed patterns and are embedded as explicit
  leftmost-match scanners with JavaScript word-boundary semantics.
-/

namespace Timataka

/-- JavaScript strings, modelled as lists of characters. -/
abbrev Str := List Char

/-- Literal helper: a Lean string literal viewed as a JS string. -/
def lit (s : String) : Str := s.toList

/-- ASCII decimal digit, as matched by `\d` in a non-unicode JS regex. -/
def isDigit (c : Char) : Bool := '0' ≤ c && c ≤ '9'

/-- JS regex word character (`\w` = `[A-Za-z0-9_]`); used for `\b` boundaries. -/
def isWordChar (c : Char) : Bool :=
  isDigit c || ('a' ≤ c && c ≤ 'z') || ('A' ≤ c && c ≤ 'Z') || c = '_'

/-- Whitespace as stripped by `String.prototype.trim` (common cases). -/
def isSpace (c : Char) : Bool := c = ' ' || c = '\t' || c = '\n' || c = '\r'

/-- `String.prototype.trim`: strip whitespace from both ends. -/
def trim (s : Str) : Str :=
  ((s.dropWhile isSpace).reverse.dropWhile isSpace).reverse

/-- `String.prototype.toLowerCase` on the characters this repository's data
uses: ASCII letters and the uppercase Icelandic letters of the fixtures. -/
def jsToLower (c : Char) : Char :=
  if 'A' ≤ c && c ≤ 'Z' then Char.ofNat (c.toNat + 32)
  else if c = 'Á' then 'á' else if c = 'É' then 'é'
  else if c = 'Í' then 'í' else if c = 'Ó' then 'ó'
  else if c = 'Ú' then 'ú' else if c = 'Ý' then 'ý'
  else if c = 'Þ' then 'þ' else if c = 'Æ' then 'æ'
  else if c = 'Ö' then 'ö' else if c = 'Ð' then 'ð'
  else c

/-- `s.toLowerCase()` on a whole string. -/
def strLower (s : Str) : Str := s.map jsToLower

/-- JS truthiness of a nullable string (`null` and `''` are falsy). -/
def truthy : Option Str → Bool
  | none => false
  | some s => !s.isEmpty

/-- `hay.includes(needle)`: contiguous substring containment. -/
def jsIncludes : Str → Str → Bool
  | [], needle => needle.isEmpty
  | x :: t, needle => List.isPrefixOf needle (x :: t) || jsIncludes t needle

/-! ### Embedded regular-expression scanners

The scraper uses four fixed patterns:
  * `\b(19|20)\d{2}\b`            (bare birth-year token),
  * `\((\d{4})\)`                 (parenthesised 4-digit year),
  * `\b(19|20)\d{2}\b|\((\d{4})\)` (query year detection, in that order),
  * `[?&]participant=([^&]+)`     (contestant id in an anchor href).
Each is embedded as a leftmost-match scanner.  The `prev` argument carries
the character immediately before the current position, so that the `\b`
word-boundary assertion can be evaluated exactly as JS does. -/

/-- Try to match `\b(19|20)\d{2}\b` at the current position.  On success
returns the whole 4-character match and the remainder of the string. -/
def bareYearAt (prev : Option Char) : Str → Option (Str × Str)
  | a :: b :: c :: d :: rest =>
    if (match prev with | none => true | some p => !isWordChar p)
        && ((a = '1' && b = '9') || (a = '2' && b = '0'))
        && isDigit c && isDigit d
        && (match rest with | [] => true | e :: _ => !isWordChar e) then
      some ([a, b, c, d], rest)
    else none
  | _ => none

/-- Try to match `\((\d{4})\)` at the current position.  On success returns
the captured 4 digits and the remainder of the string. -/
def parenYearAt : Str → Option (Str × Str)
  | '(' :: a :: b :: c :: d :: ')' :: rest =>
    if isDigit a && isDigit b && isDigit c && isDigit d then
      some ([a, b, c, d], rest)
    else none
  | _ => none

/-- First match of `\b(19|20)\d{2}\b` anywhere in the string (whole match,
i.e. `m[0]` of the JS regex). -/
def findBareYear (prev : Option Char) : Str → Option Str
  | [] => none
  | x :: xs =>
    match bareYearAt prev (x :: xs) with
    | some (m, _) => some m
    | none => findBareYear (some x) xs

/-- First match of `\((\d{4})\)` anywhere in the string (captured digits,
i.e. `m[1]` of the JS regex). -/
def findParenYear : Str → Option Str
  | [] => none
  | x :: xs =>
    match parenYearAt (x :: xs) with
    | some (g, _) => some g
    | none => findParenYear xs

/-- `name.match(/\b(19|20)\d{2}\b|\((\d{4})\)/)` followed by the scraper's
`birthYearMatch[1] || birthYearMatch[2] || birthYearMatch[0].replace(/[()]/g, '')`.
For the first alternative the first capture group is the `(19|20)` prefix, so
the extracted value is the two characters `19`/`20`; for the second
alternative it is the 4 captured digits. -/
def findQueryYear (prev : Option Char) : Str → Option Str
  | [] => none
  | x :: xs =>
    match bareYearAt prev (x :: xs) with
    | some (m, _) => some (m.take 2)
    | none =>
      match parenYearAt (x :: xs) with
      | some (g, _) => some g
      | none => findQueryYear (some x) xs

/-- Worker for `stripYears`, structurally recursive on a fuel argument;
every step consumes at least one character, so fuel equal to the string
length is always enough. -/
def stripYearsFuel : Nat → Option Char → Str → Str
  | 0, _, s => s
  | _ + 1, _, [] => []
  | fuel + 1, prev, x :: xs =>
    match parenYearAt (x :: xs) with
    | some (_, rest) => stripYearsFuel fuel (some ')') rest
    | none =>
      match bareYearAt prev (x :: xs) with
      | some (m, rest) => stripYearsFuel fuel (some (m.getLastD 'x')) rest
      | none => x :: stripYearsFuel fuel (some x) xs

/-- Global replace `.replace(/\(\d{4}\)|\b(19|20)\d{2}\b/g, '')` used to strip
year tokens from the query name: every match is removed, scanning resumes
after each match, and boundary context is taken from the original string. -/
def stripYears (prev : Option Char) (s : Str) : Str :=
  stripYearsFuel s.length prev s

/-- First match of `[?&]participant=([^&]+)` in an href (captured group). -/
def participantAt : Str → Option Str
  | x :: rest =>
    if (x = '?' || x = '&') && (lit "participant=").isPrefixOf rest then
      let cap := (rest.drop 12).takeWhile (· ≠ '&')
      if cap.isEmpty then none else some cap
    else none
  | [] => none

/-- First `[?&]participant=([^&]+)` match anywhere in the string. -/
def findParticipant : Str → Option Str
  | [] => none
  | x :: xs =>
    match participantAt (x :: xs) with
    | some g => some g
    | none => findParticipant xs

/-! ### Icelandic text normalization (mockData.js, `searchMockContestants`) -/

/-- `s.replace(/c/g, r)` for a single-character pattern: every occurrence of
`c` is replaced by the string `r`. -/
def replaceChar (c : Char) (r : Str) (s : Str) : Str :=
  s.flatMap fun x => if x = c then r else [x]

/-- The chain of ten single-character global replacements performed by
`normalizeText` in mockData.js, in source order. -/
def icelandicFold (s : Str) : Str :=
  replaceChar 'ð' (lit "d")
    (replaceChar 'ö' (lit "o")
      (replaceChar 'æ' (lit "ae")
        (replaceChar 'þ' (lit "th")
          (replaceChar 'ý' (lit "y")
            (replaceChar 'ú' (lit "u")
              (replaceChar 'í' (lit "i")
                (replaceChar 'é' (lit "e")
                  (replaceChar 'á' (lit "a")
                    (replaceChar 'ó' (lit "o") s)))))))))

/-- `normalizeText` from mockData.js: lowercase, then the replacement
chain. -/
def normalizeText (t : Str) : Str := icelandicFold (strLower t)

/-- Character-wise folding table named by the specification: á→a, í→i, ó→o,
ú→u, ý→y, é→e, ö→o, þ→th, æ→ae, ð→d; all other characters unchanged. -/
def foldChar (c : Char) : Str :=
  if c = 'á' then lit "a" else if c = 'í' then lit "i"
  else if c = 'ó' then lit "o" else if c = 'ú' then lit "u"
  else if c = 'ý' then lit "y" else if c = 'é' then lit "e"
  else if c = 'ö' then lit "o" else if c = 'þ' then lit "th"
  else if c = 'æ' then lit "ae" else if c = 'ð' then lit "d"
  else [c]

/-- Specification-side normalization: ASCII lowercasing followed by the
character-wise Icelandic folding. -/
def specNormalize (t : Str) : Str := (strLower t).flatMap foldChar

/-! ### Data model

Record shapes produced by the scraper and the mock dataset.  A scraped
result row has no `eventId` field; the mock result fixtures do, so the
field is carried on the record and left empty by the row extractor. -/

structure Contestant where
  id : Str
  position : Str
  name : Str
  bib : Str
  club : Str
  category : Str
  time : Str
  birthYear : Option Str
  raceId : Str
  raceName : Str
  eventId : Str := []
  deriving DecidableEq, Repr

structure Race where
  id : Str
  name : Str
  url : Str
  eventId : Str
  deriving DecidableEq, Repr

structure Event where
  id : Str
  name : Str
  date : Str
  url : Str
  deriving DecidableEq, Repr

structure Split where
  checkpoint : Str
  distance : Str
  splitTime : Str
  time : Str
  position : Str
  deriving DecidableEq, Repr

/-- Contestant-detail record.  JavaScript returns structurally different
objects on different paths; optional fields cover the union of shapes
(`finalTime` is absent on the record reconstructed from a race result,
which instead keeps the result's `time`/`position`/`raceId`/`raceName`
fields; `errMsg` only appears on the error-fallback record). -/
structure Details where
  id : Str
  name : Str
  bib : Str
  category : Str
  club : Str
  birthYear : Option Str := none
  finalTime : Option Str := none
  timeSplits : List Split
  totalCheckpoints : Nat
  lastUpdate : Str
  status : Str
  position : Option Str := none
  time : Option Str := none
  raceId : Option Str := none
  raceName : Option Str := none
  errMsg : Option Str := none
  deriving DecidableEq, Repr

/-! ### Mock dataset (mockData.js) -/

def mockEvents : List Event :=
  [ { id := lit "reykjavik-marathon-2025", name := lit "Reykjavik Marathon 2025",
      date := lit "2025-08-23", url := lit "https://timataka.net/reykjavik-marathon-2025" },
    { id := lit "akureyri-run-festival-2025", name := lit "Akureyri Run Festival 2025",
      date := lit "2025-07-05", url := lit "https://timataka.net/akureyri-run-festival-2025" },
    { id := lit "westman-islands-festival-2025", name := lit "Westman Islands Festival 2025",
      date := lit "2025-06-01", url := lit "https://timataka.net/westman-islands-festival-2025" } ]

def mockRaces : List Race :=
  [ { id := lit "reykjavik-marathon-2025-full", name := lit "42.2km Marathon",
      url := lit "https://timataka.net/reykjavik-marathon-2025-full",
      eventId := lit "reykjavik-marathon-2025" },
    { id := lit "reykjavik-marathon-2025-half", name := lit "21.1km Half Marathon",
      url := lit "https://timataka.net/reykjavik-marathon-2025-half",
      eventId := lit "reykjavik-marathon-2025" },
    { id := lit "reykjavik-marathon-2025-10k", name := lit "10km Run",
      url := lit "https://timataka.net/reykjavik-marathon-2025-10k",
      eventId := lit "reykjavik-marathon-2025" },
    { id := lit "akureyri-run-festival-2025-10k", name := lit "10km Run",
      url := lit "https://timataka.net/akureyri-run-festival-2025-10k",
      eventId := lit "akureyri-run-festival-2025" },
    { id := lit "akureyri-run-festival-2025-5k", name := lit "5km Run",
      url := lit "https://timataka.net/akureyri-run-festival-2025-5k",
      eventId := lit "akureyri-run-festival-2025" },
    { id := lit "westman-islands-festival-2025-half", name := lit "Half Marathon",
      url := lit "https://timataka.net/westman-islands-festival-2025-half",
      eventId := lit "westman-islands-festival-2025" } ]

def runner1 : Contestant :=
  { id := lit "runner-1", position := lit "1", name := lit "Jón Jónsson",
    bib := lit "101", club := lit "Reykjavik Running Club", category := lit "M35-39",
    time := lit "02:45:33", birthYear := some (lit "1988"),
    raceId := lit "reykjavik-marathon-2025-full",
    eventId := lit "reykjavik-marathon-2025", raceName := lit "Reykjavik Marathon 2025" }

def runner2 : Contestant :=
  { id := lit "runner-2", position := lit "2", name := lit "Guðrún Guðmundsdóttir",
    bib := lit "102", club := lit "Breiðablik", category := lit "F30-34",
    time := lit "02:48:14", birthYear := some (lit "1993"),
    raceId := lit "reykjavik-marathon-2025-full",
    eventId := lit "reykjavik-marathon-2025", raceName := lit "Reykjavik Marathon 2025" }

def runner3 : Contestant :=
  { id := lit "runner-3", position := lit "3", name := lit "Björn Gunnarsson",
    bib := lit "103", club := lit "ÍR", category := lit "M25-29",
    time := lit "02:50:45", birthYear := some (lit "1997"),
    raceId := lit "reykjavik-marathon-2025-full",
    eventId := lit "reykjavik-marathon-2025", raceName := lit "Reykjavik Marathon 2025" }

def runner4 : Contestant :=
  { id := lit "runner-4", position := lit "4", name := lit "Anna Kristinsdóttir",
    bib := lit "104", club := lit "KR", category := lit "F25-29",
    time := lit "02:53:21", birthYear := some (lit "1998"),
    raceId := lit "reykjavik-marathon-2025-full",
    eventId := lit "reykjavik-marathon-2025", raceName := lit "Reykjavik Marathon 2025" }

def runner5 : Contestant :=
  { id := lit "runner-5", position := lit "5", name := lit "Sigurður Ólafsson",
    bib := lit "105", club := lit "Fjölnir", category := lit "M40-44",
    time := lit "02:55:12", birthYear := some (lit "1984"),
    raceId := lit "reykjavik-marathon-2025-full",
    eventId := lit "reykjavik-marathon-2025", raceName := lit "Reykjavik Marathon 2025" }

def runner6 : Contestant :=
  { id := lit "runner-6", position := lit "1", name := lit "Elín Halldórsdóttir",
    bib := lit "201", club := lit "UFA", category := lit "F20-24",
    time := lit "00:37:22", birthYear := some (lit "2001"),
    raceId := lit "akureyri-run-festival-2025-10k",
    eventId := lit "akureyri-run-festival-2025", raceName := lit "Akureyri 10K 2025" }

def runner7 : Contestant :=
  { id := lit "runner-7", position := lit "2", name := lit "Þór Arnarsson",
    bib := lit "202", club := lit "Þór", category := lit "M20-24",
    time := lit "00:38:15", birthYear := some (lit "2002"),
    raceId := lit "akureyri-run-festival-2025-10k",
    eventId := lit "akureyri-run-festival-2025", raceName := lit "Akureyri 10K 2025" }

def runner8 : Contestant :=
  { id := lit "runner-8", position := lit "1", name := lit "Jón Jónsson",
    bib := lit "301", club := lit "Víkingur", category := lit "M30-34",
    time := lit "01:25:33", birthYear := some (lit "1991"),
    raceId := lit "westman-islands-festival-2025-half",
    eventId := lit "westman-islands-festival-2025",
    raceName := lit "Westman Islands Half Marathon 2025" }

def mockRaceResults : List Contestant :=
  [runner1, runner2, runner3, runner4, runner5, runner6, runner7, runner8]

/-- `mockContestantDetails` from mockData.js.  `new Date().toISOString()` is
modelled by an explicit clock argument `now`. -/
def mockContestantDetails (now : Str) : Details :=
  { id := lit "runner-1", name := lit "Jón Jónsson", bib := lit "101",
    category := lit "M35-39", club := lit "Reykjavik Running Club",
    birthYear := some (lit "1988"), finalTime := some (lit "02:45:33"),
    timeSplits :=
      [ { checkpoint := lit "5km", distance := lit "5km",
          splitTime := lit "00:18:45", time := lit "00:18:45", position := lit "2" },
        { checkpoint := lit "10km", distance := lit "10km",
          splitTime := lit "00:19:12", time := lit "00:37:57", position := lit "1" },
        { checkpoint := lit "Half", distance := lit "21.1km",
          splitTime := lit "00:41:05", time := lit "01:19:02", position := lit "1" },
        { checkpoint := lit "30km", distance := lit "30km",
          splitTime := lit "00:37:47", time := lit "01:56:49", position := lit "1" },
        { checkpoint := lit "Finish", distance := lit "42.2km",
          splitTime := lit "00:48:44", time := lit "02:45:33", position := lit "1" } ],
    totalCheckpoints := 5, lastUpdate := now, status := lit "Finished" }

/-- `searchMockContestants` from mockData.js: filter of the mock race
results by normalized or raw-lowercased substring match on name or club. -/
def searchMockContestants (query : Str) : List Contestant :=
  mockRaceResults.filter fun contestant =>
    jsIncludes (normalizeText contestant.name) (normalizeText query)
      || jsIncludes (normalizeText contestant.club) (normalizeText query)
      || jsIncludes (strLower contestant.name) (strLower query)
      || (!contestant.club.isEmpty
            && jsIncludes (strLower contestant.club) (strLower query))

/-- `getMockContestantById` from mockData.js. -/
def getMockContestantById (id : Str) (now : Str) : Option Details :=
  if id = lit "runner-1" then some (mockContestantDetails now)
  else
    match mockRaceResults.find? fun c => c.id = id with
    | none => none
    | some c =>
      some { id := c.id, name := c.name, bib := c.bib, category := c.category,
             club := c.club, birthYear := c.birthYear, finalTime := some c.time,
             timeSplits :=
               [ { checkpoint := lit "Finish",
                   distance := if jsIncludes c.raceId (lit "marathon")
                               then lit "42.2km" else lit "10km",
                   splitTime := c.time, time := c.time, position := c.position } ],
             totalCheckpoints := 1, lastUpdate := now, status := lit "Finished" }

/-! ### HTTP fetcher with retry (`makeRequest`, scraper.js) -/

/-- Maximum number of attempts (`MAX_RETRIES` in scraper.js). -/
def MAX_RETRIES : Nat := 3

/-- Outcome of a single HTTP attempt: a response (abstracted to its payload),
or an axios error carrying `error.response.status` when the server answered
and `none` when there was no response at all. -/
inductive FetchOutcome where
  | success (resp : Nat)
  | failure (status : Option Nat)
  deriving DecidableEq, Repr

/-- `!error.response || error.response.status >= 500` from makeRequest. -/
def shouldRetry : Option Nat → Bool
  | none => true
  | some s => 500 ≤ s

/-- `Math.min(1000 * Math.pow(2, attempt - 1), 10000)`. -/
def backoffDelay (attempt : Nat) : Nat := min (1000 * 2 ^ (attempt - 1)) 10000

/-- Propositional equality on `Except` values is decidable componentwise. -/
instance {ε α : Type} [DecidableEq ε] [DecidableEq α] :
    DecidableEq (Except ε α) := fun a b =>
  match a, b with
  | .ok x, .ok y =>
    if h : x = y then .isTrue (by rw [h]) else .isFalse (by simp [h])
  | .error x, .error y =>
    if h : x = y then .isTrue (by rw [h]) else .isFalse (by simp [h])
  | .ok _, .error _ => .isFalse (by simp)
  | .error _, .ok _ => .isFalse (by simp)

/-- Trace of one `makeRequest` call: index of the last attempt made, the
backoff delays slept between consecutive attempts, and the final result
(`Except.error` = the thrown last error, carrying its response status). -/
structure RequestTrace where
  lastAttempt : Nat
  delays : List Nat
  result : Except (Option Nat) Nat
  deriving DecidableEq, Repr

/-- The retry loop of `makeRequest`: `attempt` is the 1-based attempt index,
`rem` the number of attempts still permitted including the current one
(initially `MAX_RETRIES`).  An attempt that succeeds returns its response;
a failing attempt retries only when the error is transient and another
attempt is permitted, sleeping the exponential-backoff delay first;
otherwise the loop breaks and the last error is thrown. -/
def makeRequestLoop (outcomes : Nat → FetchOutcome) : Nat → Nat → RequestTrace
  | attempt, rem + 1 =>
    match outcomes attempt with
    | .success r => ⟨attempt, [], .ok r⟩
    | .failure e =>
      if shouldRetry e && decide (0 < rem) then
        let t := makeRequestLoop outcomes (attempt + 1) rem
        { t with delays := backoffDelay attempt :: t.delays }
      else ⟨attempt, [], .error e⟩
  | attempt, 0 => ⟨attempt, [], .error none⟩

/-- `makeRequest(url)`, as a function of the per-attempt outcomes. -/
def makeRequest (outcomes : Nat → FetchOutcome) : RequestTrace :=
  makeRequestLoop outcomes 1 MAX_RETRIES

/-! ### Cache store (`getFromCache` / `saveToCache`, scraper.js) -/

/-- `CACHE_TTL = 3600 * 1000` milliseconds. -/
def CACHE_TTL : Int := 3600 * 1000

/-- One cache file: `{ timestamp: Date.now(), value }`. -/
structure CacheRecord (α : Type) where
  timestamp : Int
  value : α

/-- The cache directory: one record per (encoded) key. -/
def CacheState (α : Type) := Str → Option (CacheRecord α)

/-- `saveToCache(key, value)` at time `now`: a no-op when caching is
disabled, otherwise replaces the record stored for the key. -/
def saveToCache (enabled : Bool) (key : Str) (v : α) (now : Int)
    (st : CacheState α) : CacheState α :=
  if enabled then fun k => if k = key then some ⟨now, v⟩ else st k else st

/-- `getFromCache(key)` at time `now`: returns the stored value only when
caching is enabled, a record exists, its timestamp is truthy and the record
is younger than the TTL; expired records are reported as misses but not
deleted (the state is returned unchanged — the source only ever reads in
`getFromCache`). -/
def getFromCache (enabled : Bool) (key : Str) (now : Int)
    (st : CacheState α) : Option α × CacheState α :=
  if enabled then
    match st key with
    | none => (none, st)
    | some r =>
      if r.timestamp ≠ 0 ∧ now - r.timestamp < CACHE_TTL then (some r.value, st)
      else (none, st)
  else (none, st)

/-! ### Results-table extractor (`scrapeRaceResults`, scraper.js) -/

/-- An anchor found inside a table cell, with its relevant attributes. -/
structure Link where
  href : Option Str
  title : Option Str
  deriving DecidableEq, Repr

/-- A `<td>` cell: its text content and the first anchor inside it, if any
(`$(tds[i]).find('a')`). -/
structure Td where
  text : Str
  link : Option Link := none
  deriving DecidableEq, Repr

/-- `$(tds[n])` where the cell may be absent: cheerio yields an empty
selection whose `.text()` is `''` and which contains no anchor. -/
def getTd (tds : List Td) (n : Nat) : Td := tds.getD n { text := [] }

/-- `${raceId}-${i}` etc.: decimal rendering of a row index. -/
def natStr (n : Nat) : Str := Nat.toDigits 10 n

/-- `.replace(/\s+/g, '-')`: collapse each maximal whitespace run into one
hyphen. -/
def squashWs : Str → Str
  | [] => []
  | x :: xs =>
    if isSpace x then
      match squashWsAux xs with
      | rest => '-' :: rest
    else x :: squashWs xs
where
  /-- Skip the remainder of a whitespace run, then continue. -/
  squashWsAux : Str → Str
    | [] => []
    | x :: xs => if isSpace x then squashWsAux xs else x :: squashWs xs

/-- Birth-year cascade of the primary results strategy: (1) a bare
`\b(19|20)\d{2}\b` year in the name anchor's `title` attribute — consulted
only when the anchor exists *and* has an `href` attribute, since the title
lookup sits inside `if (href)` in the source; (2) the `\((\d{4})\)` capture
in the name cell's text; (3) a bare year in the category cell's text, only
when the row has at least 5 cells. -/
def primaryBirthYear (tds : List Td) : Option Str :=
  let fromTitle :=
    match (getTd tds 1).link with
    | some l =>
      match l.href with
      | some _ => findBareYear none (l.title.getD [])
      | none => none
    | none => none
  match fromTitle with
  | some y => some y
  | none =>
    match findParenYear (trim (getTd tds 1).text) with
    | some y => some y
    | none =>
      if 5 ≤ tds.length then findBareYear none (trim (getTd tds 4).text)
      else none

/-- The contestant record built for one row of the primary
(`.results-table`) strategy (row index `i`, page heading `h1`). -/
def rowContestant (raceId h1 : Str) (i : Nat) (tds : List Td) : Contestant :=
  let contestantId :=
    match (getTd tds 1).link with
    | some l =>
      match l.href with
      | some href => (findParticipant href).getD []
      | none => []
    | none => []
  { id := if contestantId.isEmpty then raceId ++ '-' :: natStr i else contestantId,
    position := trim (getTd tds 0).text,
    name := trim (getTd tds 1).text,
    bib := trim (getTd tds 2).text,
    club := trim (getTd tds 3).text,
    category := trim (getTd tds 4).text,
    time := trim (getTd tds 5).text,
    birthYear := primaryBirthYear tds,
    raceId := raceId,
    raceName := h1 }

/-- Birth-year extraction of the fallback (`.dataTable`) strategy:
`name.match(/\((\d{4})\)/) || category.match(/\b(19|20)\d{2}\b/)` followed by
`birthYearMatch[1] || birthYearMatch[0]`.  For the category alternative the
first capture group is the `(19|20)` prefix, so only those two characters
are kept. -/
def fallbackBirthYear (name category : Str) : Option Str :=
  match findParenYear name with
  | some g => some g
  | none =>
    match findBareYear none category with
    | some m => some (m.take 2)
    | none => none

/-- The contestant record built for one row of the fallback (`.dataTable`)
strategy. -/
def fallbackRowContestant (raceId h1 : Str) (tds : List Td) : Contestant :=
  let position := trim (getTd tds 0).text
  let name := trim (getTd tds 1).text
  let club := if 4 ≤ tds.length then trim (getTd tds 3).text else []
  let category := if 5 ≤ tds.length then trim (getTd tds 4).text else []
  { id := strLower (squashWs (raceId ++ '-' :: position ++ '-' :: name)),
    position := position,
    name := name,
    bib := trim (getTd tds 2).text,
    club := club,
    category := category,
    time := if 6 ≤ tds.length then trim (getTd tds 5).text else [],
    birthYear := fallbackBirthYear name category,
    raceId := raceId,
    raceName := h1 }

/-- Primary strategy over the rows of `.results-table`: skip the header row
(index 0) and every row with fewer than 5 cells. -/
def scrapePrimaryRows (raceId h1 : Str) (rows : List (List Td)) : List Contestant :=
  rows.enum.filterMap fun p =>
    if p.1 = 0 then none
    else if p.2.length < 5 then none
    else some (rowContestant raceId h1 p.1 p.2)

/-- Fallback strategy over the rows of `.dataTable`: skip the header row
(index 0) and every row with fewer than 3 cells. -/
def scrapeFallbackRows (raceId h1 : Str) (rows : List (List Td)) : List Contestant :=
  rows.enum.filterMap fun p =>
    if p.1 = 0 then none
    else if p.2.length < 3 then none
    else some (fallbackRowContestant raceId h1 p.2)

/-- The extraction phase of `scrapeRaceResults`: the fallback table strategy
is attempted only when the primary strategy produced nothing. -/
def scrapeResultsTables (raceId h1 : Str)
    (primaryRows fallbackRows : List (List Td)) : List Contestant :=
  let results := scrapePrimaryRows raceId h1 primaryRows
  if results.isEmpty then scrapeFallbackRows raceId h1 fallbackRows else results

/-! ### Search pipeline (`searchContestants`, scraper.js, live path) -/

/-- Query parsing of `searchContestants`: the query is lowercased; if
`name.match(/\b(19|20)\d{2}\b|\((\d{4})\)/)` (run on the original query)
finds a year token, the extracted `birthYearMatch[1] || birthYearMatch[2]`
value becomes the search birth year and every year token is stripped from
the lowercased name, which is then trimmed.  Returns
`(normalizedSearchName, searchBirthYear)`, the latter `[]` when absent. -/
def parseSearchQuery (name : Str) : Str × Str :=
  let low := strLower name
  match findQueryYear none name with
  | some y => (trim (stripYears none low), y)
  | none => (low, [])

/-- The per-candidate filter of the first (strict) search pass. -/
def strictSearchMatch (nm yr : Str) (c : Contestant) : Bool :=
  let nameMatches := jsIncludes (strLower c.name) nm
  if !yr.isEmpty && truthy c.birthYear then
    nameMatches && (c.birthYear.getD []) = yr
  else nameMatches

/-- `${name} (Birth year ${yr} not found)` annotation placed on the first
result of the name-only fallback pass. -/
def annotateYearNotFound (yr : Str) : List Contestant → List Contestant
  | [] => []
  | c :: cs =>
    { c with name := c.name ++ lit " (Birth year " ++ yr ++ lit " not found)" } :: cs

/-- `${name} (Matched category: ${category})` annotation placed on the first
result of the category fallback pass. -/
def annotateMatchedCategory : List Contestant → List Contestant
  | [] => []
  | c :: cs =>
    { c with name := c.name ++ lit " (Matched category: " ++ c.category ++ lit ")" } :: cs

/-- De-duplication by the `${name}|${club || ''}|${birthYear || ''}` key,
keeping the first occurrence. -/
def dedupByKey (seen : List Str) : List Contestant → List Contestant
  | [] => []
  | c :: cs =>
    let key := c.name ++ '|' :: c.club ++ '|' :: (c.birthYear.getD [])
    if seen.contains key then dedupByKey seen cs
    else c :: dedupByKey (key :: seen) cs

/-- The pure tail of the live `searchContestants` path, applied to the
concatenated results of the recent-race window: parse the query, strict
filter (birth year required to match only when both sides have one), the
name-only fallback pass with its annotation when the strict pass found
nothing despite a year being given, de-duplication, and the category
fallback pass (the `!USE_MOCK_DATA` guard holds on this path). -/
def searchPipeline (name : Str) (allResults : List Contestant) : List Contestant :=
  let parsed := parseSearchQuery name
  let nm := parsed.1
  let yr := parsed.2
  let filteredResults := allResults.filter (strictSearchMatch nm yr)
  let filteredResults :=
    if filteredResults.isEmpty && !yr.isEmpty then
      annotateYearNotFound yr
        (allResults.filter fun c => jsIncludes (strLower c.name) nm)
    else filteredResults
  let uniqueResults := dedupByKey [] filteredResults
  if uniqueResults.isEmpty && !allResults.isEmpty then
    let categoryResults :=
      (allResults.filter fun c =>
        !c.category.isEmpty && jsIncludes (strLower c.category) nm).take 10
    if !categoryResults.isEmpty then annotateMatchedCategory categoryResults
    else uniqueResults
  else uniqueResults

/-! ### Orchestration models (scraper.js)

Each operation's orchestration is embedded as a pure function of the
branch-relevant flags and of the outcome of its `try` block, abstracted as
an `Except`: `Except.error` is a thrown exception reaching the surrounding
`catch`, `Except.ok` the value the `try` block would return.  The cache-hit
branch (which returns a previously stored value verbatim) is modelled
separately by `getFromCache`/`saveToCache` above and these models take the
cache-miss path, which is where live fetching happens. -/

/-- `getEvents(limit)`: mock data in mock mode or when the host is
unreachable, mock data on any exception, otherwise the extracted events. -/
def getEventsModel (useMock accessible : Bool) (limit : Nat)
    (live : Except Str (List Event)) : List Event :=
  if useMock || !accessible then mockEvents.take limit
  else
    match live with
    | .ok events => events
    | .error _ => mockEvents.take limit

/-- Mock-data selection of `getLatestRaces`: filtered by event when an
event id is given. -/
def mockRacesFor (state : List Race) (eventId : Option Str) (limit : Nat) :
    List Race :=
  match eventId with
  | some e => (state.filter fun race => race.eventId = e).take limit
  | none => state.take limit

/-- The in-place reassignment `race.eventId = eventId` performed inside the
`mockRaces.filter` callback of the future-event and no-reachable-URL
branches: every element of the module-level array is mutated before the
result is sliced. -/
def setRaceEventId (e : Str) (r : Race) : Race := { r with eventId := e }

/-- `getLatestRaces(limit, eventId)` as a function of the module-level mock
race array `state`; returns the result list and the new array contents.
Branches, in source order: mock mode / unreachable host; the future-event
branch (`eventId.includes('2025')`), which mutates the mock array; the
live fetch for an event, which falls back to the same mutating branch when
no candidate URL was reachable; the live fetch itself; and the `catch`
fallback to (unmutated) mock data. -/
def getLatestRacesModel (state : List Race) (useMock accessible : Bool)
    (limit : Nat) (eventId : Option Str) (urlReachable : Bool)
    (live : Except Str (List Race)) : List Race × List Race :=
  if useMock || !accessible then (mockRacesFor state eventId limit, state)
  else
    match eventId with
    | some e =>
      if jsIncludes e (lit "2025") then
        let mutated := state.map (setRaceEventId e)
        (mutated.take limit, mutated)
      else if !urlReachable then
        let mutated := state.map (setRaceEventId e)
        (mutated.take limit, mutated)
      else
        match live with
        | .ok races => (races, state)
        | .error _ => (mockRacesFor state eventId limit, state)
    | none =>
      match live with
      | .ok races => (races, state)
      | .error _ => (mockRacesFor state eventId limit, state)

/-- Mock-data selection of `scrapeRaceResults`: filtered by race when a
truthy race id is given. -/
def mockResultsFor (raceId : Str) : List Contestant :=
  if !raceId.isEmpty then mockRaceResults.filter fun r => r.raceId = raceId
  else mockRaceResults

/-- `scrapeRaceResults(raceId)`: mock data in mock mode or when the host is
unreachable, mock data on any exception, otherwise whatever the extraction
produced — including the empty list. -/
def scrapeRaceResultsModel (useMock accessible : Bool) (raceId : Str)
    (live : Except Str (List Contestant)) : List Contestant :=
  if useMock || !accessible then mockResultsFor raceId
  else
    match live with
    | .ok results => results
    | .error _ => mockResultsFor raceId

/-- `searchContestants(name)`: empty query short-circuits to `[]`; mock
mode / unreachable host and any exception fall back to the mock search;
otherwise the search pipeline runs over the gathered race results. -/
def searchContestantsModel (useMock accessible : Bool) (name : Str)
    (gathered : Except Str (List Contestant)) : List Contestant :=
  if name.isEmpty then []
  else if useMock || !accessible then searchMockContestants name
  else
    match gathered with
    | .ok allResults => searchPipeline name allResults
    | .error _ => searchMockContestants name

/-! ### Contestant details (`scrapeContestantDetails`, scraper.js) -/

/-- The generic placeholder returned when the mock dataset has no record
for the contestant (mock-mode branch, status `Finished`). -/
def genericContestant (id now : Str) : Details :=
  { id := id, name := lit "Contestant " ++ id, bib := lit "123",
    category := lit "Open", club := lit "Running Club",
    finalTime := some (lit "01:23:45"), timeSplits := [],
    totalCheckpoints := 0, lastUpdate := now, status := lit "Finished" }

/-- The generic placeholder returned from the `catch` block when the mock
dataset has no record either: status `Error fetching details`, plus the
error message. -/
def genericErrorContestant (id now msg : Str) : Details :=
  { genericContestant id now with
    status := lit "Error fetching details", errMsg := some msg }

/-- The record returned for a generated (`raceId-…`) contestant id found in
the scraped race results: the result row spread into a details record with
empty splits and status `Finished`/`Unknown` depending on whether the row
has a finish time. -/
def reconstructedDetails (c : Contestant) (now : Str) : Details :=
  { id := c.id, name := c.name, bib := c.bib, category := c.category,
    club := c.club, birthYear := c.birthYear, finalTime := none,
    position := some c.position, time := some c.time,
    raceId := some c.raceId, raceName := some c.raceName,
    timeSplits := [], lastUpdate := now, totalCheckpoints := 0,
    status := if !c.time.isEmpty then lit "Finished" else lit "Unknown" }

/-- A scraped contestant-detail page, abstracted to the text the selector
queries extract: the `h1` heading, the split-table rows, the
`.contestant-details` field texts and the block texts scanned for a birth
year. -/
structure DetailPage where
  h1 : Str
  splitRows : List (List Td)
  bib : Str
  category : Str
  club : Str
  finalTime : Str
  detailBlocks : List Str
  deriving Repr

/-- Split rows of the detail page: skip the header row (index 0), keep
rows with at least 3 cells. -/
def scrapeSplitRows (rows : List (List Td)) : List Split :=
  rows.enum.filterMap fun p =>
    if p.1 = 0 then none
    else if p.2.length < 3 then none
    else some { checkpoint := trim (getTd p.2 0).text,
                distance := trim (getTd p.2 1).text,
                splitTime := trim (getTd p.2 2).text,
                time := trim (getTd p.2 3).text,
                position := trim (getTd p.2 4).text }

/-- The birth-year scan over the `.contestant-details` blocks: each block
with a `\b(19|20)\d{2}\b` match overwrites the previous value, so the last
matching block wins. -/
def detailBirthYear (blocks : List Str) : Option Str :=
  blocks.foldl
    (fun acc b => match findBareYear none b with
                  | some y => some y
                  | none => acc)
    none

/-- The details record built from a live contestant page. -/
def livePageDetails (id : Str) (p : DetailPage) (now : Str) : Details :=
  let timeSplits := scrapeSplitRows p.splitRows
  let finalTime := trim p.finalTime
  { id := id, name := trim p.h1, bib := trim p.bib,
    category := trim p.category, club := trim p.club,
    birthYear := detailBirthYear p.detailBlocks,
    finalTime := some finalTime, timeSplits := timeSplits,
    totalCheckpoints := timeSplits.length, lastUpdate := now,
    status := if !finalTime.isEmpty then lit "Finished"
              else if 0 < timeSplits.length then lit "In progress"
              else lit "Not started" }

/-- `scrapeContestantDetails(contestantId, raceId)` on the cache-miss path:
mock mode returns the mock record or the generic `Finished` placeholder; a
generated id (containing `-`) is looked up in the scraped race results and
reconstructed, a missing row being thrown and caught; a plain id is
resolved against the contestant page; and the `catch` block falls back to
the mock record or the `Error fetching details` placeholder. -/
def scrapeContestantDetailsModel (useMock accessible : Bool) (id : Str)
    (raceResults : Except Str (List Contestant))
    (page : Except Str DetailPage) (now : Str) : Details :=
  if useMock || !accessible then
    (getMockContestantById id now).getD (genericContestant id now)
  else
    let onError (msg : Str) : Details :=
      (getMockContestantById id now).getD (genericErrorContestant id now msg)
    if id.contains '-' then
      match raceResults with
      | .error msg => onError msg
      | .ok results =>
        match results.find? fun c => c.id = id with
        | some c => reconstructedDetails c now
        | none => onError (lit "Contestant with ID " ++ id
                             ++ lit " not found in race results")
    else
      match page with
      | .error msg => onError msg
      | .ok p => livePageDetails id p now

/-! ### Specification-side definitions

These follow the wording of the specification (not the source) and are
compared against the embedded code. -/

/-- Claimed step (1) of the birth-year cascade, as the specification words
it: a bare 19xx/20xx year in the name anchor's `title` attribute, with no
condition on the anchor's `href`. -/
def claimedTitleYear (tds : List Td) : Option Str :=
  match (getTd tds 1).link with
  | some l => findBareYear none (l.title.getD [])
  | none => none

/-- The birth-year cascade exactly as the claim words it: title year, then
parenthesised year after the name, then category year, else null. -/
def claimedPrimaryBirthYear (tds : List Td) : Option Str :=
  (claimedTitleYear tds).orElse fun _ =>
    (findParenYear (trim (getTd tds 1).text)).orElse fun _ =>
      if 5 ≤ tds.length then findBareYear none (trim (getTd tds 4).text)
      else none

/-- Step (1) as amended: the anchor must also carry an `href` attribute
(the title lookup sits inside `if (href)` in the source). -/
def amendedTitleYear (tds : List Td) : Option Str :=
  match (getTd tds 1).link with
  | some l => if l.href.isSome then findBareYear none (l.title.getD []) else none
  | none => none

/-- The amended birth-year cascade: href-gated title year, then
parenthesised year after the name, then category year, else null. -/
def amendedPrimaryBirthYear (tds : List Td) : Option Str :=
  (amendedTitleYear tds).orElse fun _ =>
    (findParenYear (trim (getTd tds 1).text)).orElse fun _ =>
      if 5 ≤ tds.length then findBareYear none (trim (getTd tds 4).text)
      else none

/-- Name matching as the claim words it for the search: the query name
matches a candidate name if either the Icelandic-folded forms or the
raw-lowercased forms are in a substring relation. -/
def claimedNameMatch (query name : Str) : Bool :=
  jsIncludes (specNormalize name) (specNormalize query)
    || jsIncludes (strLower name) (strLower query)

/-- The mock-search predicate re-expressed with the specification-side
character-wise normalization. -/
def specMockMatch (query : Str) (c : Contestant) : Bool :=
  jsIncludes (specNormalize c.name) (specNormalize query)
    || jsIncludes (specNormalize c.club) (specNormalize query)
    || jsIncludes (strLower c.name) (strLower query)
    || (!c.club.isEmpty && jsIncludes (strLower c.club) (strLower query))

/-- The status vocabulary the claim asserts for contestant details. -/
def claimedStatusSet : List Str :=
  [lit "Finished", lit "In progress", lit "Not started", lit "Error"]

/-- The status vocabulary the code can actually produce. -/
def actualStatusSet : List Str :=
  [lit "Finished", lit "In progress", lit "Not started",
   lit "Unknown", lit "Error fetching details"]

/-! ## Theorems -/

/-- C1: evaluation of the live search at the claim's own scenario.  For the
query `"Jón Jónsson 1988"` against a result set holding a 1988-born and a
1991-born `"Jón Jónsson"`, the code does **not** return only the 1988-born
candidate: the year regex's first capture group is the `(19|20)` prefix, so
the strict pass compares every birth year against `"19"`, matches nothing,
and the name-only fallback returns both candidates, the first annotated
with `(Birth year 19 not found)`. -/
theorem C1_birthYearScenario_eval :
    searchContestantsModel false true (lit "Jón Jónsson 1988")
        (.ok [runner1, runner8])
      = [{ runner1 with name := lit "Jón Jónsson (Birth year 19 not found)" },
         runner8]
    ∧ searchContestantsModel false true (lit "Jón Jónsson 1988")
        (.ok [runner1, runner8]) ≠ [runner1] := by
  constructor
  · decide
  · decide

/-- C2: evaluation of the query parser at the claim's two forms.  For the
parenthesised form `"<name> (<year>)"` the parsed year equals the year and
the name has the token stripped, as claimed; but for the bare form
`"<name> <year>"` the parsed year is the two-character capture `"19"`, not
`"1988"`. -/
theorem C2_queryYearParse_eval :
    parseSearchQuery (lit "Jón Jónsson 1988") = (lit "jón jónsson", lit "19")
    ∧ parseSearchQuery (lit "Jón Jónsson (1988)")
        = (lit "jón jónsson", lit "1988")
    ∧ lit "19" ≠ lit "1988" := by
  refine ⟨by decide, by decide, by decide⟩

/-- C3: `makeRequest` makes between 1 and 3 attempts; every attempt that was
followed by another had failed transiently (no response, or a 5xx status —
in particular a 4xx error is never retried); the delays slept between
consecutive attempts are exactly `min(1000·2^(k−1), 10000)` for the k-th
attempt; and the final result is the last attempt's own outcome, so when
every attempt fails the last observed error is thrown. -/
theorem C3_makeRequest_retry_policy (outcomes : Nat → FetchOutcome) :
    (1 ≤ (makeRequest outcomes).lastAttempt
      ∧ (makeRequest outcomes).lastAttempt ≤ MAX_RETRIES)
    ∧ (∀ k, 1 ≤ k → k < (makeRequest outcomes).lastAttempt →
        ∃ e, outcomes k = .failure e ∧ shouldRetry e = true)
    ∧ ((makeRequest outcomes).delays
        = (List.range ((makeRequest outcomes).lastAttempt - 1)).map
            (fun j => min (1000 * 2 ^ j) 10000))
    ∧ (∀ r, outcomes (makeRequest outcomes).lastAttempt = .success r →
        (makeRequest outcomes).result = .ok r)
    ∧ (∀ e, outcomes (makeRequest outcomes).lastAttempt = .failure e →
        (makeRequest outcomes).result = .error e) := by
  rcases h1 : outcomes 1 with r1 | e1
  · have ht : makeRequest outcomes = ⟨1, [], .ok r1⟩ := by
      simp [makeRequest, MAX_RETRIES, makeRequestLoop, h1]
    rw [ht]; dsimp only
    refine ⟨by decide, fun k hk1 hk2 => absurd hk2 (by omega), by decide, ?_, ?_⟩
    · intro r hr; rw [h1] at hr; cases hr; rfl
    · intro e he; rw [h1] at he; cases he
  · rcases hr1 : shouldRetry e1 with _ | _
    · have ht : makeRequest outcomes = ⟨1, [], .error e1⟩ := by
        simp [makeRequest, MAX_RETRIES, makeRequestLoop, h1, hr1]
      rw [ht]; dsimp only
      refine ⟨by decide, fun k hk1 hk2 => absurd hk2 (by omega), by decide, ?_, ?_⟩
      · intro r hr; rw [h1] at hr; cases hr
      · intro e he; rw [h1] at he; cases he; rfl
    · rcases h2 : outcomes 2 with r2 | e2
      · have ht : makeRequest outcomes = ⟨2, [backoffDelay 1], .ok r2⟩ := by
          simp [makeRequest, MAX_RETRIES, makeRequestLoop, h1, hr1, h2]
        rw [ht]; dsimp only
        refine ⟨by decide, ?_, by decide, ?_, ?_⟩
        · intro k hk1 hk2
          have hk : k = 1 := by omega
          subst hk; exact ⟨e1, h1, hr1⟩
        · intro r hr; rw [h2] at hr; cases hr; rfl
        · intro e he; rw [h2] at he; cases he
      · rcases hr2 : shouldRetry e2 with _ | _
        · have ht : makeRequest outcomes = ⟨2, [backoffDelay 1], .error e2⟩ := by
            simp [makeRequest, MAX_RETRIES, makeRequestLoop, h1, hr1, h2, hr2]
          rw [ht]; dsimp only
          refine ⟨by decide, ?_, by decide, ?_, ?_⟩
          · intro k hk1 hk2
            have hk : k = 1 := by omega
            subst hk; exact ⟨e1, h1, hr1⟩
          · intro r hr; rw [h2] at hr; cases hr
          · intro e he; rw [h2] at he; cases he; rfl
        · rcases h3 : outcomes 3 with r3 | e3
          · have ht : makeRequest outcomes
                = ⟨3, [backoffDelay 1, backoffDelay 2], .ok r3⟩ := by
              simp [makeRequest, MAX_RETRIES, makeRequestLoop, h1, hr1, h2, hr2, h3]
            rw [ht]; dsimp only
            refine ⟨by decide, ?_, by decide, ?_, ?_⟩
            · intro k hk1 hk2
              have hk : k = 1 ∨ k = 2 := by omega
              rcases hk with hk | hk <;> subst hk
              · exact ⟨e1, h1, hr1⟩
              · exact ⟨e2, h2, hr2⟩
            · intro r hr; rw [h3] at hr; cases hr; rfl
            · intro e he; rw [h3] at he; cases he
          · have ht : makeRequest outcomes
                = ⟨3, [backoffDelay 1, backoffDelay 2], .error e3⟩ := by
              simp [makeRequest, MAX_RETRIES, makeRequestLoop, h1, hr1, h2, hr2, h3]
            rw [ht]; dsimp only
            refine ⟨by decide, ?_, by decide, ?_, ?_⟩
            · intro k hk1 hk2
              have hk : k = 1 ∨ k = 2 := by omega
              rcases hk with hk | hk <;> subst hk
              · exact ⟨e1, h1, hr1⟩
              · exact ⟨e2, h2, hr2⟩
            · intro r hr; rw [h3] at hr; cases hr
            · intro e he; rw [h3] at he; cases he; rfl

/-- C3 witness: a server that always answers 503 is retried twice with
delays 1000 ms and 2000 ms and the loop stops at the third attempt. -/
theorem C3_makeRequest_retry_policy_witness :
    ∃ e, (fun _ => FetchOutcome.failure (some 503)) 2 = FetchOutcome.failure e
      ∧ shouldRetry e = true :=
  (C3_makeRequest_retry_policy fun _ => FetchOutcome.failure (some 503)).2.1
    2 (by decide) (by decide)

/-- C4: for every key and value, a `saveToCache` followed by a
`getFromCache` strictly within the 1-hour TTL returns the value unchanged;
a read after the TTL has elapsed is a miss, and the stored record is left
in place (lazy expiry).  The write time is assumed truthy (`Date.now()` is
a positive epoch-millisecond count). -/
theorem C4_cache_roundTrip {α : Type} (k : Str) (v : α) (st : CacheState α)
    (t0 t1 : Int) (h0 : t0 ≠ 0) :
    (t1 - t0 < CACHE_TTL →
      (getFromCache true k t1 (saveToCache true k v t0 st)).1 = some v)
    ∧ (CACHE_TTL ≤ t1 - t0 →
      (getFromCache true k t1 (saveToCache true k v t0 st)).1 = none
      ∧ (getFromCache true k t1 (saveToCache true k v t0 st)).2 k
          = some ⟨t0, v⟩) := by
  constructor
  · intro hlt
    simp [getFromCache, saveToCache, h0, hlt]
  · intro hge
    have hnot : ¬ (t0 ≠ 0 ∧ t1 - t0 < CACHE_TTL) := by
      rintro ⟨-, h⟩; omega
    constructor
    · simp [getFromCache, saveToCache, hnot]
    · simp [getFromCache, saveToCache, hnot]

/-- C4 witness: the cache round-trip at a concrete key, value and pair of
timestamps one millisecond apart. -/
theorem C4_cache_roundTrip_witness :
    ((1 : Int) ≠ 0)
    ∧ (((2 : Int) - 1 < CACHE_TTL →
        (getFromCache true (lit "k") 2
          (saveToCache true (lit "k") (7 : Nat) 1 fun _ => none)).1 = some 7)
      ∧ (CACHE_TTL ≤ (2 : Int) - 1 →
        (getFromCache true (lit "k") 2
          (saveToCache true (lit "k") (7 : Nat) 1 fun _ => none)).1 = none
        ∧ (getFromCache true (lit "k") 2
            (saveToCache true (lit "k") (7 : Nat) 1 fun _ => none)).2 (lit "k")
            = some ⟨1, 7⟩)) :=
  ⟨by decide, C4_cache_roundTrip (lit "k") 7 (fun _ => none) 1 2 (by decide)⟩

/-- C5 counterexample: a totally empty extraction where data was expected
is **not** replaced by mock data.  For a race id the mock dataset does have
results for, a live fetch that parses to zero rows makes `scrapeRaceResults`
return the empty list, not the mock collection. -/
theorem C5_emptyExtraction_counterexample :
    scrapeRaceResultsModel false true (lit "reykjavik-marathon-2025-full")
        (.ok []) = []
    ∧ mockResultsFor (lit "reykjavik-marathon-2025-full") ≠ []
    ∧ scrapeRaceResultsModel false true (lit "reykjavik-marathon-2025-full")
        (.ok [])
      ≠ mockResultsFor (lit "reykjavik-marathon-2025-full") := by
  refine ⟨by decide, by decide, by decide⟩

/-- C5 as amended: for each logical operation, an exception thrown during
the live fetch is absorbed and the corresponding mock fallback is returned
(the mock collection; for contestant details, the mock record when the id
is known to the mock dataset, else a synthetic `Error fetching details`
record) — no error propagates past the orchestration layer; an extraction
that merely comes back empty, however, is returned as the empty collection,
not replaced by mock data. -/
theorem C5_fallbackOnError (st : List Race) (limit : Nat)
    (rid now ev name m m2 e : Str) (rs : List Contestant) (id : Str)
    (h2025 : jsIncludes ev (lit "2025") = false)
    (hname : name.isEmpty = false) :
    getEventsModel false true limit (.error e) = mockEvents.take limit
    ∧ (getLatestRacesModel st false true limit (some ev) true (.error e)).1
        = mockRacesFor st (some ev) limit
    ∧ (getLatestRacesModel st false true limit none true (.error e)).1
        = mockRacesFor st none limit
    ∧ scrapeRaceResultsModel false true rid (.error e) = mockResultsFor rid
    ∧ searchContestantsModel false true name (.error e)
        = searchMockContestants name
    ∧ scrapeContestantDetailsModel false true id (.error m) (.error m2) now
        = (getMockContestantById id now).getD
            (genericErrorContestant id now
              (if id.contains '-' then m else m2))
    ∧ scrapeRaceResultsModel false true rid (.ok rs) = rs := by
  refine ⟨rfl, ?_, rfl, rfl, ?_, ?_, rfl⟩
  · simp [getLatestRacesModel, h2025]
  · simp [searchContestantsModel, hname]
  · by_cases hc : '-' ∈ id <;>
      simp [scrapeContestantDetailsModel, hc]

/-- C5 witness: the race-list fallback at a concrete event id without a
`2025` substring and the search fallback at a concrete non-empty query. -/
theorem C5_fallbackOnError_witness :
    jsIncludes (lit "foo") (lit "2025") = false
    ∧ (lit "x" : Str).isEmpty = false
    ∧ (getLatestRacesModel mockRaces false true 3 (some (lit "foo")) true
        (.error (lit "boom"))).1 = mockRacesFor mockRaces (some (lit "foo")) 3 :=
  ⟨by decide, by decide,
    (C5_fallbackOnError mockRaces 3 (lit "r") (lit "T") (lit "foo") (lit "x")
      (lit "m") (lit "m2") (lit "boom") [] (lit "id")
      (by decide) (by decide)).2.1⟩

/-- C6 counterexample: the claim's step (1) fires on any year in the name
anchor's `title` attribute, but the code consults the title only when the
anchor also has an `href`.  For a row whose anchor carries
`title="1985"` but no `href`, and whose name text is `"John Doe (1990)"`,
the code extracts `1990` (step 2) while the claimed cascade yields `1985`. -/
theorem C6_titleYear_counterexample :
    (rowContestant (lit "r") (lit "H") 1
      [ { text := lit "1" },
        { text := lit "John Doe (1990)",
          link := some { href := none, title := some (lit "1985") } },
        { text := lit "12" }, { text := lit "club" },
        { text := lit "M50" } ]).birthYear = some (lit "1990")
    ∧ claimedPrimaryBirthYear
      [ { text := lit "1" },
        { text := lit "John Doe (1990)",
          link := some { href := none, title := some (lit "1985") } },
        { text := lit "12" }, { text := lit "club" },
        { text := lit "M50" } ] = some (lit "1985")
    ∧ (some (lit "1990") : Option Str) ≠ some (lit "1985") := by
  refine ⟨by decide, by decide, by decide⟩

/-- C6 as amended: for each results-table row, the extractor derives the
birth year by trying, in order and stopping at the first match: (1) a
4-digit 19xx/20xx year in the name anchor's `title` attribute, provided the
anchor also has an `href` attribute; (2) a parenthesised 4-digit year in
the name cell's text; (3) a bare 19xx/20xx year in the category column
text; otherwise the birth year is null, never guessed or defaulted. -/
theorem C6_birthYear_cascade (raceId h1 : Str) (i : Nat) (tds : List Td) :
    (rowContestant raceId h1 i tds).birthYear = amendedPrimaryBirthYear tds := by
  show primaryBirthYear tds = amendedPrimaryBirthYear tds
  unfold primaryBirthYear amendedPrimaryBirthYear amendedTitleYear
  rcases hl : (getTd tds 1).link with _ | l
  · rcases hp : findParenYear (trim (getTd tds 1).text) with _ | y <;>
      simp [hp, Option.orElse]
  · rcases hh : l.href with _ | h
    · simp only [hh, Option.isSome_none, Bool.false_eq_true, if_false]
      rcases hp : findParenYear (trim (getTd tds 1).text) with _ | y <;>
        simp [hp, Option.orElse]
    · simp only [hh, Option.isSome_some, if_true]
      rcases ht : findBareYear none (l.title.getD []) with _ | y
      · rcases hp : findParenYear (trim (getTd tds 1).text) with _ | z <;>
          simp [ht, hp, Option.orElse]
      · simp [ht, Option.orElse]

/-- Helper: a `filterMap` with two skip-guards is the `map` over the rows
passing both guards. -/
theorem filterMap_two_guards {α β : Type} (c1 c2 : α → Prop)
    [DecidablePred c1] [DecidablePred c2] (g : α → β) (l : List α) :
    (l.filterMap fun a => if c1 a then none else if c2 a then none else some (g a))
      = (l.filter fun a => !decide (c1 a) && !decide (c2 a)).map g := by
  induction l with
  | nil => simp
  | cons x xs ih =>
    by_cases h1 : c1 x <;> by_cases h2 : c2 x <;> simp [h1, h2, ih]

/-- C7: both results-table strategies skip the header row (index 0) and
silently skip every row under the minimum column count (5 for the primary
`.results-table` strategy, 3 for the fallback `.dataTable` strategy): the
output is exactly the map of the row builder over the enumerated rows that
pass both checks, so skipped rows never appear in the output, and the
extractor is a total function — no exception escapes it. -/
theorem C7_row_skipping (raceId h1 : Str) (rows frows : List (List Td)) :
    scrapePrimaryRows raceId h1 rows
      = ((rows.enum.filter fun p => !decide (p.1 = 0) && !decide (p.2.length < 5)).map
          fun p => rowContestant raceId h1 p.1 p.2)
    ∧ scrapeFallbackRows raceId h1 frows
      = ((frows.enum.filter fun p => !decide (p.1 = 0) && !decide (p.2.length < 3)).map
          fun p => fallbackRowContestant raceId h1 p.2) := by
  constructor
  · exact filterMap_two_guards (fun p => p.1 = 0) (fun p => p.2.length < 5)
      (fun p => rowContestant raceId h1 p.1 p.2) rows.enum
  · exact filterMap_two_guards (fun p => p.1 = 0) (fun p => p.2.length < 3)
      (fun p => fallbackRowContestant raceId h1 p.2) frows.enum

/-- Helper: single-character global replacement distributes over
concatenation. -/
theorem replaceChar_append (c : Char) (r a b : Str) :
    replaceChar c r (a ++ b) = replaceChar c r a ++ replaceChar c r b := by
  simp [replaceChar]

/-- Helper: the mock normalization chain distributes over concatenation. -/
theorem icelandicFold_append (a b : Str) :
    icelandicFold (a ++ b) = icelandicFold a ++ icelandicFold b := by
  simp [icelandicFold, replaceChar_append]

/-- Helper: on a single character the replacement chain agrees with the
character-wise folding table. -/
theorem icelandicFold_singleton (x : Char) :
    icelandicFold [x] = foldChar x := by
  by_cases h1 : x = 'ó'
  · subst h1; decide
  by_cases h2 : x = 'á'
  · subst h2; decide
  by_cases h3 : x = 'é'
  · subst h3; decide
  by_cases h4 : x = 'í'
  · subst h4; decide
  by_cases h5 : x = 'ú'
  · subst h5; decide
  by_cases h6 : x = 'ý'
  · subst h6; decide
  by_cases h7 : x = 'þ'
  · subst h7; decide
  by_cases h8 : x = 'æ'
  · subst h8; decide
  by_cases h9 : x = 'ö'
  · subst h9; decide
  by_cases h10 : x = 'ð'
  · subst h10; decide
  simp [icelandicFold, replaceChar, foldChar, lit,
        h1, h2, h3, h4, h5, h6, h7, h8, h9, h10]

/-- Helper: the sequential replacement chain of `normalizeText` computes
the character-wise Icelandic folding. -/
theorem icelandicFold_eq_flatMap (s : Str) :
    icelandicFold s = s.flatMap foldChar := by
  induction s with
  | nil => decide
  | cons x xs ih =>
    have : x :: xs = [x] ++ xs := rfl
    rw [this, icelandicFold_append, icelandicFold_singleton, ih]
    simp

/-- Helper: `normalizeText` equals the specification-side normalization. -/
theorem normalizeText_eq_specNormalize (t : Str) :
    normalizeText t = specNormalize t :=
  icelandicFold_eq_flatMap (strLower t)

/-- C8 counterexample: the live search path performs no Icelandic folding.
Under the claimed matching, the query name `"jon"` matches the candidate
`"Jón Jónsson"` (folded to `"jon jonsson"`), yet the live
`searchContestants` path — raw lowercasing only — returns no result for
that query against that candidate. -/
theorem C8_liveSearch_counterexample :
    claimedNameMatch (lit "jon") (lit "Jón Jónsson") = true
    ∧ searchContestantsModel false true (lit "jon") (.ok [runner1]) = [] := by
  refine ⟨by decide, by decide⟩

/-- C8 as amended: the Icelandic folding (á→a, í→i, ó→o, ú→u, ý→y, é→e,
ö→o, þ→th, æ→ae, ð→d on top of lowercasing) with matching attempted both
normalized and raw-lowercased (OR'd) is performed by the mock-data search
`searchMockContestants`, against both the candidate's name and club; the
live search path matches by raw-lowercased name substring only. -/
theorem C8_mockSearch_normalization :
    (∀ t, normalizeText t = specNormalize t)
    ∧ (∀ q, searchMockContestants q = mockRaceResults.filter (specMockMatch q)) := by
  refine ⟨normalizeText_eq_specNormalize, ?_⟩
  intro q
  unfold searchMockContestants specMockMatch
  simp only [normalizeText_eq_specNormalize]

/-- Helper: every record `getMockContestantById` returns has status
`Finished`. -/
theorem getMockContestantById_status (id now : Str) (d : Details)
    (h : getMockContestantById id now = some d) :
    d.status = lit "Finished" := by
  unfold getMockContestantById at h
  split at h
  · cases h; rfl
  · split at h
    · cases h
    · cases h; rfl

/-- C9 counterexample: a contestant reconstructed from a race-result row
with an empty finish time gets status `Unknown`, which is outside the
claimed vocabulary {Finished, In progress, Not started, Error}. -/
theorem C9_statusUnknown_counterexample :
    (scrapeContestantDetailsModel false true (lit "abc-1")
        (.ok [{ runner1 with id := lit "abc-1", time := [] }])
        (.error (lit "x")) (lit "T")).status = lit "Unknown"
    ∧ ¬ (lit "Unknown") ∈ claimedStatusSet := by
  refine ⟨by decide, by decide⟩

/-- C9 as amended: every record returned by `scrapeContestantDetails` —
mock mode, reconstructed from a race result, scraped live, or produced as
an error fallback — has a status in {Finished, In progress, Not started,
Unknown, Error fetching details}. -/
theorem C9_status_invariant (useMock accessible : Bool) (id now : Str)
    (raceResults : Except Str (List Contestant))
    (page : Except Str DetailPage) :
    (scrapeContestantDetailsModel useMock accessible id raceResults page
        now).status ∈ actualStatusSet := by
  unfold scrapeContestantDetailsModel
  have hmockF : ∀ i n, ((getMockContestantById i n).getD
      (genericContestant i n)).status = lit "Finished" := by
    intro i n
    rcases h : getMockContestantById i n with _ | d
    · rfl
    · simpa using getMockContestantById_status i n d h
  have hmockE : ∀ i n msg, ((getMockContestantById i n).getD
      (genericErrorContestant i n msg)).status ∈ actualStatusSet := by
    intro i n msg
    rcases h : getMockContestantById i n with _ | d
    · simp [genericErrorContestant, genericContestant, actualStatusSet]
    · have := getMockContestantById_status i n d h
      simp [this, actualStatusSet]
  split
  · rw [hmockF]; simp [actualStatusSet]
  · split
    · split
      · exact hmockE _ _ _
      · split
        · rename_i c _
          unfold reconstructedDetails
          by_cases hc : c.time.isEmpty <;> simp [hc, actualStatusSet]
        · exact hmockE _ _ _
    · split
      · exact hmockE _ _ _
      · rename_i pg
        unfold livePageDetails
        by_cases hf : trim pg.finalTime = []
        · by_cases hs : 0 < (scrapeSplitRows pg.splitRows).length <;>
            simp [hf, hs, actualStatusSet]
        · simp [hf, actualStatusSet]

/-- C10: when `getLatestRaces` runs in live mode with an event id containing
`"2025"`, or when no candidate URL for the event was reachable, it returns
the shared mock race list with every record's `eventId` reassigned in place
to the requested event id — mutating the module-level mock array — so a
later mock-mode call filtering by any other event id sees no races, and
filtering by the new id sees them all. -/
theorem C10_futureEvent_mock_mutation (st : List Race) (limit l2 : Nat)
    (e o : Str) (urlOk : Bool) (live live2 : Except Str (List Race))
    (htrig : (jsIncludes e (lit "2025") || !urlOk) = true) :
    (getLatestRacesModel st false true limit (some e) urlOk live).1
      = (st.map (setRaceEventId e)).take limit
    ∧ (getLatestRacesModel st false true limit (some e) urlOk live).2
      = st.map (setRaceEventId e)
    ∧ (∀ r ∈ (getLatestRacesModel st false true limit (some e) urlOk live).2,
        r.eventId = e)
    ∧ (o ≠ e →
        (getLatestRacesModel
          ((getLatestRacesModel st false true limit (some e) urlOk live).2)
          true true l2 (some o) urlOk live2).1 = [])
    ∧ (getLatestRacesModel
        ((getLatestRacesModel st false true limit (some e) urlOk live).2)
        true true l2 (some e) urlOk live2).1
      = ((getLatestRacesModel st false true limit (some e) urlOk live).2).take l2 := by
  have hmut : getLatestRacesModel st false true limit (some e) urlOk live
      = ((st.map (setRaceEventId e)).take limit, st.map (setRaceEventId e)) := by
    by_cases hi : jsIncludes e (lit "2025") = true
    · simp [getLatestRacesModel, hi]
    · have hu : urlOk = false := by
        rcases urlOk with _ | _
        · rfl
        · simp [hi] at htrig
      subst hu
      simp [getLatestRacesModel, hi]
  rw [hmut]
  refine ⟨rfl, rfl, ?_, ?_, ?_⟩
  · intro r hr
    simp only [List.mem_map] at hr
    rcases hr with ⟨a, _, rfl⟩
    rfl
  · intro hne
    simp only [getLatestRacesModel, mockRacesFor, if_true, Bool.true_or]
    have hfil : (st.map (setRaceEventId e)).filter
        (fun race => decide (race.eventId = o)) = [] := by
      rw [List.filter_eq_nil_iff]
      intro a ha
      simp only [List.mem_map] at ha
      rcases ha with ⟨b, _, rfl⟩
      simpa [setRaceEventId] using fun h => hne h.symm
    simp [hfil]
  · simp only [getLatestRacesModel, mockRacesFor, if_true, Bool.true_or]
    have hfil : (st.map (setRaceEventId e)).filter
        (fun race => decide (race.eventId = e)) = st.map (setRaceEventId e) := by
      rw [List.filter_eq_self]
      intro a ha
      simp only [List.mem_map] at ha
      rcases ha with ⟨b, _, rfl⟩
      simp [setRaceEventId]
    simp [hfil]

/-- C10 witness: the mutation branch at the concrete mock race list and a
concrete `2025`-bearing event id. -/
theorem C10_futureEvent_mock_mutation_witness :
    (getLatestRacesModel mockRaces false true 2 (some (lit "summer-2025")) true
        (.ok [])).1
      = (mockRaces.map (setRaceEventId (lit "summer-2025"))).take 2 :=
  (C10_futureEvent_mock_mutation mockRaces 2 2 (lit "summer-2025") (lit "x")
    true (.ok []) (.ok []) (by decide)).1

end Timataka
